import Mathlib

/-!
Verification of the `window.rs` example program (wgpu windowed demo).

The source is a single Rust file that builds a window/device/pipeline
state and runs an event loop.  We shallowly embed its data model and
operations: pure state transformers take the external inputs (window
size, CLI arguments, the surface-acquire result) as explicit arguments,
and side-effecting outputs (the render pass submitted to the GPU, the
control-flow decision of the event loop, log warnings) are returned as
values.  Colors are `f64` quadruples in the source; no arithmetic is
performed on them in this variant, so we model them over `ℚ`, which
represents the literals exactly at the precision the claims use.
-/

namespace Wgpu

/-- `wgpu::PrimitiveTopology` (the variants used by the program). -/
inductive PrimitiveTopology where
  | PointList
  | LineList
  | LineStrip
  | TriangleList
  | TriangleStrip
deriving DecidableEq, Repr

/-- `wgpu::IndexFormat`. -/
inductive IndexFormat where
  | Uint16
  | Uint32
deriving DecidableEq, Repr

/-- `wgpu::PresentMode` (the variant used). -/
inductive PresentMode where
  | Fifo
  | Immediate
deriving DecidableEq, Repr

/-- `wgpu::CompositeAlphaMode` (the variant used). -/
inductive CompositeAlphaMode where
  | Auto
deriving DecidableEq, Repr

/-- `wgpu::TextureUsages` (the variant used). -/
inductive TextureUsages where
  | RENDER_ATTACHMENT
deriving DecidableEq, Repr

/-- `winit::dpi::PhysicalSize<u32>`. -/
structure PhysicalSize where
  width : ℕ
  height : ℕ
deriving DecidableEq, Repr

/-- `wgpu::Color`: four `f64` channels, modelled over `ℚ`. -/
structure Color where
  r : ℚ
  g : ℚ
  b : ℚ
  a : ℚ
deriving DecidableEq, Repr

/-- `wgpu::SurfaceConfiguration` as built in `State::new`.  The pixel
format is chosen by the external surface (first supported format); we
carry it as an opaque numeric identifier. -/
structure SurfaceConfiguration where
  usage : TextureUsages
  format : ℕ
  width : ℕ
  height : ℕ
  present_mode : PresentMode
  alpha_mode : CompositeAlphaMode
deriving DecidableEq, Repr

/-- The `primitive: wgpu::PrimitiveState` part of the pipeline
descriptor (the fields the program sets; the rest are defaults). -/
structure PrimitiveState where
  topology : PrimitiveTopology
  strip_index_format : Option IndexFormat
deriving DecidableEq, Repr

/-- The render pipeline, reduced to the descriptor data the program
chooses (the compiled object itself lives in the GPU library). -/
structure RenderPipeline where
  primitive : PrimitiveState
deriving DecidableEq, Repr

/-- `wgpu::SurfaceError`. -/
inductive SurfaceError where
  | Timeout
  | Outdated
  | Lost
  | OutOfMemory
deriving DecidableEq, Repr

/-- `winit::event::ElementState`. -/
inductive ElementState where
  | Pressed
  | Released
deriving DecidableEq, Repr

/-- `winit::event::VirtualKeyCode` (Escape is the only key the program
inspects; every other key is collapsed into one constructor). -/
inductive VirtualKeyCode where
  | Escape
  | OtherKey
deriving DecidableEq, Repr

/-- `winit::event::WindowEvent` (the constructors the program can
distinguish; all remaining event kinds are collapsed into `Other`).
Cursor positions are `f64` in winit, modelled over `ℚ`. -/
inductive WindowEvent where
  | CursorMoved (x y : ℚ)
  | CloseRequested
  | KeyboardInput (key_state : ElementState) (virtual_keycode : Option VirtualKeyCode)
  | Resized (physical_size : PhysicalSize)
  | Other
deriving DecidableEq, Repr

/-- The `State` struct of `window.rs`.  The surface, device, queue and
window are opaque external handles with no modelled content; the window
title (set via `window.set_title`) is the one piece of window state the
program writes, so we record it here. -/
structure State where
  size : PhysicalSize
  background : Color
  config : SurfaceConfiguration
  render_pipeline : RenderPipeline
  title : String
deriving DecidableEq, Repr

/-- The topology/index-format selection of `State::new` (lines 141-154):
`topology` starts at `PointList` and `index_format` at `None`, then the
if/else-if chain overrides them for the four recognized strings. -/
def selectPrimitive (primitive_type : String) : PrimitiveTopology × Option IndexFormat :=
  if primitive_type = "line-list" then
    (PrimitiveTopology.LineList, none)
  else if primitive_type = "triangle-list" then
    (PrimitiveTopology.TriangleList, none)
  else if primitive_type = "triangle-strip" then
    (PrimitiveTopology.TriangleStrip, some IndexFormat.Uint32)
  else if primitive_type = "line-strip" then
    (PrimitiveTopology.LineStrip, some IndexFormat.Uint32)
  else
    (PrimitiveTopology.PointList, none)

/-- The effective `primitive_type` string of `State::new` (lines
135-139): it starts as `"triangle-list"` and is replaced by `args[1]`
when more than one process argument is present.  `cliArgs` is the
argument list after the program name (`args[1..]`). -/
def effectivePrimitiveType (cliArgs : List String) : String :=
  match cliArgs with
  | [] => "triangle-list"
  | a :: _ => a

/-- The initial background color of the constructed state
(`r: 0.05, g: 0.062, b: 0.08, a: 1.0`). -/
def initialBackground : Color :=
  { r := 5/100, g := 62/1000, b := 8/100, a := 1 }

/-- `State::new`, with the external inputs explicit: the window's inner
size, the surface's first supported format, and the process arguments
after the program name.  Adapter/device negotiation either succeeds or
aborts the process, so the embedding models the successful path. -/
def State.new (size : PhysicalSize) (format : ℕ) (cliArgs : List String) : State :=
  let config : SurfaceConfiguration :=
    { usage := TextureUsages.RENDER_ATTACHMENT
      format := format
      width := size.width
      height := size.height
      present_mode := PresentMode.Fifo
      alpha_mode := CompositeAlphaMode.Auto }
  let primitive_type := effectivePrimitiveType cliArgs
  let sel := selectPrimitive primitive_type
  { size := size
    background := initialBackground
    config := config
    render_pipeline := { primitive := { topology := sel.1, strip_index_format := sel.2 } }
    title := "Primitive" ++ ": " ++ primitive_type }

/-- `State::resize` (lines 229-237): only a size with both dimensions
non-zero updates the stored size and the configuration width/height
(and reconfigures the surface); otherwise nothing happens. -/
def State.resize (s : State) (new_size : PhysicalSize) : State :=
  if new_size.width > 0 ∧ new_size.height > 0 then
    { s with
      size := new_size
      config := { s.config with width := new_size.width, height := new_size.height } }
  else
    s

/-- The render pass recorded by `State::render` on the success path:
one color attachment cleared to the current background, then one draw
of vertex range `0..9` and instance range `0..1`. -/
structure RenderPass where
  clear_color : Color
  draw_vertices : ℕ × ℕ
  draw_instances : ℕ × ℕ
deriving DecidableEq, Repr

/-- `State::render` (lines 239-275).  `surface.get_current_texture()`
is external; its outcome is the `acquire` argument.  The `?` operator
propagates an acquire error immediately; on success the function
records one render pass, submits it and presents.  The function never
writes a field of `self`, so the state component of the result is the
input state. -/
def State.render (s : State) (acquire : Except SurfaceError Unit) :
    State × Except SurfaceError RenderPass :=
  match acquire with
  | Except.error e => (s, Except.error e)
  | Except.ok _ =>
      (s, Except.ok
        { clear_color := s.background
          draw_vertices := (0, 9)
          draw_instances := (0, 1) })

/-- `State::update` (line 94): an empty body. -/
def State.update (s : State) : State := s

/-- `State::input` (lines 281-295): the only live arm of the match is
the wildcard, returning `false`; the cursor-moved arm is commented out
in this variant.  No field is written. -/
def State.input (s : State) (event : WindowEvent) : State × Bool :=
  match event with
  | _ => (s, false)

/-- Modelled from the spec: the input handler of the cursor-driven
variant (the second example program of the repository, not present
under the sources).  Spec 4.4: pointer-move recomputes the background
color from the normalized cursor position (red = x/width,
green = y/height, blue 1.0, alpha 1.0) and reports the event consumed;
all other events report not-consumed. -/
def State.inputCursor (s : State) (event : WindowEvent) : State × Bool :=
  match event with
  | WindowEvent.CursorMoved x y =>
      ({ s with
          background :=
            { r := x / (s.size.width : ℚ)
              g := y / (s.size.height : ℚ)
              b := 1
              a := 1 } },
        true)
  | _ => (s, false)

/-- `winit::event_loop::ControlFlow` (the variants used). -/
inductive ControlFlow where
  | Poll
  | Exit
deriving DecidableEq, Repr

/-- Observable outcome of one `Event::RedrawRequested` dispatch: the
state afterwards, the control-flow decision, whether `log::warn!` ran,
and the render pass that was submitted and presented (if any). -/
structure StepResult where
  state : State
  control : ControlFlow
  warned : Bool
  presented : Option RenderPass
deriving DecidableEq, Repr

/-- The `Event::RedrawRequested` arm of the event loop (lines 70-82):
`update` then `render`; `Lost`/`Outdated` trigger `resize(self.size)`
and the frame is skipped; `OutOfMemory` exits the loop; `Timeout` logs
a warning and skips the frame. -/
def redrawStep (s : State) (acquire : Except SurfaceError Unit) : StepResult :=
  let s1 := s.update
  match s1.render acquire with
  | (s2, Except.ok pass) =>
      { state := s2, control := ControlFlow.Poll, warned := false, presented := some pass }
  | (s2, Except.error SurfaceError.Lost) =>
      { state := s2.resize s2.size, control := ControlFlow.Poll, warned := false, presented := none }
  | (s2, Except.error SurfaceError.Outdated) =>
      { state := s2.resize s2.size, control := ControlFlow.Poll, warned := false, presented := none }
  | (s2, Except.error SurfaceError.OutOfMemory) =>
      { state := s2, control := ControlFlow.Exit, warned := false, presented := none }
  | (s2, Except.error SurfaceError.Timeout) =>
      { state := s2, control := ControlFlow.Poll, warned := true, presented := none }

/-- Runs `Event::RedrawRequested` dispatches for a sequence of acquire
outcomes; the event loop delivers no further redraws once the control
flow is `Exit`. -/
def runFrames (s : State) : List (Except SurfaceError Unit) → List StepResult
  | [] => []
  | a :: rest =>
      let r := redrawStep s a
      r :: (if r.control = ControlFlow.Exit then [] else runFrames r.state rest)

/-- One operation of the state's public interface, as invoked by the
event loop; external inputs are carried by the constructor. -/
inductive Op where
  | resize (new_size : PhysicalSize)
  | render (acquire : Except SurfaceError Unit)
  | input (event : WindowEvent)
  | update
  | redraw (acquire : Except SurfaceError Unit)
deriving Repr

/-- The state after one operation. -/
def applyOp (s : State) : Op → State
  | Op.resize new_size => s.resize new_size
  | Op.render acquire => (s.render acquire).1
  | Op.input event => (s.input event).1
  | Op.update => s.update
  | Op.redraw acquire => (redrawStep s acquire).state

/-- The state after a sequence of operations. -/
def applyOps (s : State) (ops : List Op) : State :=
  ops.foldl applyOp s

/-- The surface configuration's dimensions agree with the stored size. -/
def configMatchesSize (s : State) : Prop :=
  s.config.width = s.size.width ∧ s.config.height = s.size.height

/-- The topology table in the spec's words, amended on the no-argument
case: "line-list" maps to line-list, "triangle-list" to triangle-list,
"triangle-strip" to triangle-strip, "line-strip" to line-strip, any
other string to point-list, and a missing argument to triangle-list
(the program's built-in default `primitive_type`). -/
def specTopologyAmended (arg : Option String) : PrimitiveTopology :=
  match arg with
  | none => PrimitiveTopology.TriangleList
  | some a =>
    if a = "line-list" then PrimitiveTopology.LineList
    else if a = "triangle-list" then PrimitiveTopology.TriangleList
    else if a = "triangle-strip" then PrimitiveTopology.TriangleStrip
    else if a = "line-strip" then PrimitiveTopology.LineStrip
    else PrimitiveTopology.PointList

/-- The strip-index-format table in the spec's words: the 32-bit format
exactly for "triangle-strip" and "line-strip"; absent otherwise
(including a missing or unrecognized argument). -/
def specStripIndexFormat (arg : Option String) : Option IndexFormat :=
  match arg with
  | none => none
  | some a =>
    if a = "triangle-strip" ∨ a = "line-strip" then some IndexFormat.Uint32
    else none

/-- The CLI name of each topology (the strings the argument parsing
recognizes, plus "point-list" for the default). -/
def topologyName : PrimitiveTopology → String
  | PrimitiveTopology.PointList => "point-list"
  | PrimitiveTopology.LineList => "line-list"
  | PrimitiveTopology.LineStrip => "line-strip"
  | PrimitiveTopology.TriangleList => "triangle-list"
  | PrimitiveTopology.TriangleStrip => "triangle-strip"

/-- The first CLI argument is one of the four recognized topology
strings, or absent. -/
def isRecognizedOrAbsent : Option String → Bool
  | none => true
  | some a =>
      a = "line-list" || a = "triangle-list" || a = "triangle-strip" || a = "line-strip"

lemma configMatchesSize_resize {s : State} (h : configMatchesSize s)
    (new_size : PhysicalSize) : configMatchesSize (s.resize new_size) := by
  by_cases hc : new_size.width > 0 ∧ new_size.height > 0
  · simp [State.resize, hc, configMatchesSize]
  · simpa [State.resize, hc] using h

lemma configMatchesSize_applyOp {s : State} (h : configMatchesSize s) (op : Op) :
    configMatchesSize (applyOp s op) := by
  cases op with
  | resize new_size => exact configMatchesSize_resize h new_size
  | render acquire => cases acquire <;> simpa [applyOp, State.render] using h
  | input event => simpa [applyOp, State.input] using h
  | update => simpa [applyOp, State.update] using h
  | redraw acquire =>
      cases acquire with
      | ok u => simpa [applyOp, redrawStep, State.update, State.render] using h
      | error e =>
          cases e <;>
            simp only [applyOp, redrawStep, State.update, State.render] <;>
            first
              | exact configMatchesSize_resize h _
              | exact h

lemma configMatchesSize_applyOps {s : State} (h : configMatchesSize s)
    (ops : List Op) : configMatchesSize (applyOps s ops) := by
  induction ops generalizing s with
  | nil => exact h
  | cons op rest ih => exact ih (configMatchesSize_applyOp h op)

lemma background_resize (s : State) (new_size : PhysicalSize) :
    (s.resize new_size).background = s.background := by
  by_cases hc : new_size.width > 0 ∧ new_size.height > 0 <;>
    simp [State.resize, hc]

lemma background_applyOp (s : State) (op : Op) :
    (applyOp s op).background = s.background := by
  cases op with
  | resize new_size => exact background_resize s new_size
  | render acquire => cases acquire <;> rfl
  | input event => rfl
  | update => rfl
  | redraw acquire =>
      cases acquire with
      | ok u => rfl
      | error e =>
          cases e <;>
            simp only [applyOp, redrawStep, State.update, State.render] <;>
            exact background_resize _ _

lemma background_applyOps (s : State) (ops : List Op) :
    (applyOps s ops).background = s.background := by
  induction ops generalizing s with
  | nil => rfl
  | cons op rest ih => rw [applyOps, List.foldl_cons, ← applyOps, ih, background_applyOp]

/-- Claim C1, counterexample: with no CLI argument the constructed
pipeline's topology is triangle-list, not point-list as the claim
states ("the absence of an argument maps to point-list"). -/
theorem C1_counterexample :
    (State.new ⟨800, 600⟩ 0 []).render_pipeline.primitive.topology
        = PrimitiveTopology.TriangleList ∧
      (State.new ⟨800, 600⟩ 0 []).render_pipeline.primitive.topology
        ≠ PrimitiveTopology.PointList := by
  constructor
  · rfl
  · decide

/-- Claim C1 (amended): for every first CLI argument, the topology
selected at construction is: "line-list" maps to line-list,
"triangle-list" maps to triangle-list, "triangle-strip" maps to
triangle-strip, "line-strip" maps to line-strip, any other string maps
to point-list, and the absence of an argument maps to triangle-list. -/
theorem C1_topology_selection (size : PhysicalSize) (format : ℕ)
    (cliArgs : List String) :
    (State.new size format cliArgs).render_pipeline.primitive.topology
      = specTopologyAmended cliArgs.head? := by
  cases cliArgs with
  | nil => rfl
  | cons a rest =>
      show (selectPrimitive a).1 = specTopologyAmended (some a)
      by_cases h1 : a = "line-list"
      · simp [selectPrimitive, specTopologyAmended, h1]
      · by_cases h2 : a = "triangle-list"
        · simp [selectPrimitive, specTopologyAmended, h1, h2]
        · by_cases h3 : a = "triangle-strip"
          · simp [selectPrimitive, specTopologyAmended, h1, h2, h3]
          · by_cases h4 : a = "line-strip"
            · simp [selectPrimitive, specTopologyAmended, h1, h2, h3, h4]
            · simp [selectPrimitive, specTopologyAmended, h1, h2, h3, h4]

/-- Claim C2: the constructed pipeline's strip index format is the
32-bit format exactly when the first CLI argument is "triangle-strip"
or "line-strip"; for "line-list", "triangle-list", or a missing or
unrecognized argument, the strip index format is absent. -/
theorem C2_strip_index_format (size : PhysicalSize) (format : ℕ)
    (cliArgs : List String) :
    (State.new size format cliArgs).render_pipeline.primitive.strip_index_format
      = specStripIndexFormat cliArgs.head? := by
  cases cliArgs with
  | nil => rfl
  | cons a rest =>
      show (selectPrimitive a).2 = specStripIndexFormat (some a)
      unfold selectPrimitive specStripIndexFormat
      by_cases h1 : a = "line-list"
      · simp [h1]
      · by_cases h2 : a = "triangle-list"
        · simp [h2]
        · by_cases h3 : a = "triangle-strip"
          · simp [h3]
          · by_cases h4 : a = "line-strip"
            · simp [h4]
            · simp [h1, h2, h3, h4]

/-- Claim C3: for every window size (w,h) with w>0 and h>0, resize(w,h)
on any state stores size (w,h) and sets the surface configuration's
width and height to w and h. -/
theorem C3_resize_nonzero (s : State) (w h : ℕ) (hw : 0 < w) (hh : 0 < h) :
    ((s.resize ⟨w, h⟩).size = ⟨w, h⟩ ∧
      (s.resize ⟨w, h⟩).config.width = w ∧
      (s.resize ⟨w, h⟩).config.height = h) := by
  simp [State.resize, hw, hh]

/-- Claim C3, witness: resizing a freshly constructed state to
640 by 480 stores that size in both the state and the configuration. -/
theorem C3_resize_nonzero_witness :
    (((State.new ⟨800, 600⟩ 0 []).resize ⟨640, 480⟩).size = ⟨640, 480⟩ ∧
      ((State.new ⟨800, 600⟩ 0 []).resize ⟨640, 480⟩).config.width = 640 ∧
      ((State.new ⟨800, 600⟩ 0 []).resize ⟨640, 480⟩).config.height = 480) :=
  C3_resize_nonzero (State.new ⟨800, 600⟩ 0 []) 640 480 (by decide) (by decide)

/-- Claim C4: resize with a zero width or a zero height leaves the
whole state (stored size, configuration, and every other field)
unchanged. -/
theorem C4_resize_zero_noop (s : State) (w h : ℕ) :
    s.resize ⟨0, h⟩ = s ∧ s.resize ⟨w, 0⟩ = s := by
  constructor <;> simp [State.resize]

/-- Claim C5: on a failed frame render the event loop classifies the
error: Lost and Outdated trigger `resize` with the current stored size
and the frame is skipped with the loop still polling (no frame
presented, no warning, no exit); OutOfMemory exits the loop and no
further frames are rendered; Timeout logs a warning and skips the
frame; and a successful acquire presents the frame and keeps polling. -/
theorem C5_error_classification (s : State)
    (rest : List (Except SurfaceError Unit)) :
    (redrawStep s (Except.error SurfaceError.Lost)
        = { state := s.resize s.size, control := ControlFlow.Poll,
            warned := false, presented := none } ∧
      redrawStep s (Except.error SurfaceError.Outdated)
        = { state := s.resize s.size, control := ControlFlow.Poll,
            warned := false, presented := none } ∧
      redrawStep s (Except.error SurfaceError.OutOfMemory)
        = { state := s, control := ControlFlow.Exit,
            warned := false, presented := none } ∧
      runFrames s (Except.error SurfaceError.OutOfMemory :: rest)
        = [{ state := s, control := ControlFlow.Exit,
             warned := false, presented := none }] ∧
      redrawStep s (Except.error SurfaceError.Timeout)
        = { state := s, control := ControlFlow.Poll,
            warned := true, presented := none } ∧
      redrawStep s (Except.ok ())
        = { state := s, control := ControlFlow.Poll, warned := false,
            presented := some { clear_color := s.background,
                                draw_vertices := (0, 9),
                                draw_instances := (0, 1) } }) := by
  refine ⟨rfl, rfl, rfl, ?_, rfl, rfl⟩
  simp [runFrames, redrawStep, State.update, State.render]

/-- Claim C6: after construction and after every sequence of
operations (resize, render, input, update, and whole redraw
dispatches), the surface configuration's width and height equal the
stored size: the two are always updated together. -/
theorem C6_config_size_invariant (size : PhysicalSize) (format : ℕ)
    (cliArgs : List String) (ops : List Op) :
    configMatchesSize (applyOps (State.new size format cliArgs) ops) :=
  configMatchesSize_applyOps ⟨rfl, rfl⟩ ops

/-- Claim C7: in the cursor-driven variant (modelled from the spec),
a pointer move to (x,y) sets the background color to
(x/width, y/height, 1, 1) and is reported consumed; every other event
kind is reported not consumed and leaves the state unchanged. -/
theorem C7_cursor_input (s : State) (x y : ℚ) :
    (State.inputCursor s (WindowEvent.CursorMoved x y)
        = ({ s with background := { r := x / (s.size.width : ℚ),
                                    g := y / (s.size.height : ℚ),
                                    b := 1, a := 1 } }, true) ∧
      State.inputCursor s WindowEvent.CloseRequested = (s, false) ∧
      (∀ key_state key,
        State.inputCursor s (WindowEvent.KeyboardInput key_state key) = (s, false)) ∧
      (∀ sz, State.inputCursor s (WindowEvent.Resized sz) = (s, false)) ∧
      State.inputCursor s WindowEvent.Other = (s, false)) :=
  ⟨rfl, rfl, fun _ _ => rfl, fun _ => rfl, rfl⟩

/-- Claim C8, counterexample: with the unrecognized argument
"hexagon-fan" the title becomes "Primitive: hexagon-fan" while the
selected topology is point-list, whose name is "point-list", so the
title suffix does not name the selected topology. -/
theorem C8_counterexample :
    ((State.new ⟨800, 600⟩ 0 ["hexagon-fan"]).title = "Primitive: hexagon-fan" ∧
      (State.new ⟨800, 600⟩ 0 ["hexagon-fan"]).render_pipeline.primitive.topology
        = PrimitiveTopology.PointList ∧
      topologyName PrimitiveTopology.PointList = "point-list" ∧
      (State.new ⟨800, 600⟩ 0 ["hexagon-fan"]).title ≠ "Primitive: point-list") := by
  refine ⟨rfl, by decide, rfl, by decide⟩

/-- Claim C8 (amended): at construction the window title is the static
string "Primitive: " followed by the effective primitive-type string
(the first CLI argument, or "triangle-list" when absent); when that
argument is recognized or absent the suffix names the topology that was
selected, but for an unrecognized argument the suffix is the raw
argument while point-list is selected. -/
theorem C8_title (size : PhysicalSize) (format : ℕ) (cliArgs : List String) :
    ((State.new size format cliArgs).title
        = "Primitive" ++ ": " ++ effectivePrimitiveType cliArgs ∧
      (isRecognizedOrAbsent cliArgs.head? = true →
        (State.new size format cliArgs).title
          = "Primitive" ++ ": "
              ++ topologyName
                  ((State.new size format cliArgs).render_pipeline.primitive.topology))) := by
  refine ⟨rfl, fun hrec => ?_⟩
  cases cliArgs with
  | nil => rfl
  | cons a rest =>
      simp only [List.head?, isRecognizedOrAbsent, Bool.or_eq_true, decide_eq_true_eq]
        at hrec
      show "Primitive" ++ ": " ++ a
        = "Primitive" ++ ": " ++ topologyName (selectPrimitive a).1
      rcases hrec with ((h | h) | h) | h <;> subst h <;> rfl

/-- Claim C8, witness: with argument "line-strip" the title is
"Primitive: line-strip", which names the selected line-strip
topology. -/
theorem C8_title_witness :
    (State.new ⟨800, 600⟩ 0 ["line-strip"]).title
      = "Primitive" ++ ": "
          ++ topologyName
              ((State.new ⟨800, 600⟩ 0 ["line-strip"]).render_pipeline.primitive.topology) :=
  (C8_title ⟨800, 600⟩ 0 ["line-strip"]).2 (by decide)

/-- Claim C9: render mutates no field of the state — for every state
and every acquire outcome (success or any surface error) the state
component of the result is the input state itself. -/
theorem C9_render_no_mutation (s : State) (acquire : Except SurfaceError Unit) :
    (s.render acquire).1 = s := by
  cases acquire <;> rfl

/-- Claim C10: the input handler consumes no event and never mutates
the state, so the background color after construction and after every
operation sequence equals the initial value (0.05, 0.062, 0.08, 1.0),
and every successfully rendered frame clears to that same color. -/
theorem C10_background_invariant :
    ((∀ (s : State) (event : WindowEvent), State.input s event = (s, false)) ∧
      ∀ (size : PhysicalSize) (format : ℕ) (cliArgs : List String) (ops : List Op),
        (applyOps (State.new size format cliArgs) ops).background
            = { r := 5/100, g := 62/1000, b := 8/100, a := 1 } ∧
          ((applyOps (State.new size format cliArgs) ops).render (Except.ok ())).2
            = Except.ok
                { clear_color := { r := 5/100, g := 62/1000, b := 8/100, a := 1 },
                  draw_vertices := (0, 9), draw_instances := (0, 1) }) := by
  refine ⟨fun s event => rfl, fun size format cliArgs ops => ?_⟩
  have hb : (applyOps (State.new size format cliArgs) ops).background
      = { r := 5/100, g := 62/1000, b := 8/100, a := 1 } := by
    rw [background_applyOps]
    rfl
  refine ⟨hb, ?_⟩
  simp [State.render, hb]

end Wgpu
